import Mathlib

/-!
Verification of the authentication and account-lockout subsystem of the
vocaboost backend (Express/Supabase).  The definitions below are a shallow
embedding of:

* `src/middleware/protection/loginAttempts.js` (the Lockout Guard),
* `src/controllers/authController.js` (`login`, `forgotPassword`),
* `src/config/auth.js` (the JWT strategy and the Google OAuth strategy),
* `src/models/Profile.js` (`findById`, `create`, `update`),
* `src/routes/authRoutes.js` (the `POST /login` pipeline:
  `checkLoginAttempts()` gate followed by `authController.login`).

Stateful code is embedded by explicit state passing: the cache store, the
credential directory and the profiles table are threaded through the
functions as values.  Time (`Date.now()`) is passed explicitly in
milliseconds as an `Int`.
-/

set_option autoImplicit false

namespace VocaBoost

/-- Lock record stored by the guard under `account_locked:{email}`
(`lockAccount`, loginAttempts.js lines 87-94). -/
structure LockData where
  email : String
  attempts : Nat
  ipAddress : String
  lockedAt : Int
  lockedUntil : Int
  reason : String
deriving Repr, DecidableEq

/-- Modelled from the spec: the Cache Store collaborator
(`src/services/cacheService.js` is not part of the sources; spec section 6
gives its interface `increment(key, ttlSeconds) -> int`, `get(key)`,
`set(key, value, ttlSeconds)`, `delete(key)` with TTL expiry).  Entries are
`(key, value, expiresAt-in-ms)`; the guard uses two disjoint kinds of
values (integer counters and lock records), so the store is split into the
two corresponding association lists. -/
structure Cache where
  counters : List (String × Nat × Int)
  locks : List (String × LockData × Int)
deriving Repr, DecidableEq

/-- Modelled from the spec: `get(key)` returns the stored value when the
entry exists and has not yet expired (`now < expiresAt`), absent otherwise. -/
def lookupLive {α : Type} (l : List (String × α × Int)) (now : Int) (k : String) :
    Option α :=
  match l.find? (fun ent => ent.1 = k) with
  | some (_, v, exp) => if now < exp then some v else none
  | none => none

/-- Replace (or create) the entry for key `k`. -/
def setEntry {α : Type} (l : List (String × α × Int)) (k : String) (v : α)
    (exp : Int) : List (String × α × Int) :=
  (k, v, exp) :: l.filter (fun ent => ent.1 ≠ k)

/-- Modelled from the spec: `delete(key)`. -/
def delEntry {α : Type} (l : List (String × α × Int)) (k : String) :
    List (String × α × Int) :=
  l.filter (fun ent => ent.1 ≠ k)

/-- Modelled from the spec: `increment(key, ttlSeconds) -> int`: atomic
increment; the TTL is applied only on first creation of the key (an expired
entry counts as absent and is recreated at 1 with a fresh TTL). -/
def cacheIncr (l : List (String × Nat × Int)) (now : Int) (k : String)
    (ttlSec : Nat) : Nat × List (String × Nat × Int) :=
  match l.find? (fun ent => ent.1 = k) with
  | some (_, n, exp) =>
      if now < exp then (n + 1, setEntry l k (n + 1) exp)
      else (1, setEntry l k 1 (now + (ttlSec : Int) * 1000))
  | none => (1, setEntry l k 1 (now + (ttlSec : Int) * 1000))

/-- Key for the email-scoped failed-attempt counter (line 16). -/
def attemptsKey (email : String) : String := "login_attempts:" ++ email

/-- Key for the IP-scoped failed-attempt counter (line 17). -/
def ipAttemptsKey (ip : String) : String := "login_attempts_ip:" ++ ip

/-- Key for the lock record (line 58). -/
def lockKey (email : String) : String := "account_locked:" ++ email

/-- Constant `this.maxAttempts = 5` (line 9). -/
def maxAttempts : Nat := 5

/-- Constant `this.lockoutDuration = 15 * 60` seconds (line 10). -/
def lockoutDuration : Nat := 15 * 60

/-- Constant `this.attemptWindow = 15 * 60` seconds (line 11). -/
def attemptWindow : Nat := 15 * 60

/-- Result object of `trackFailedAttempt` (lines 27-32). -/
structure TrackResult where
  attempts : Nat
  ipAttempts : Nat
  remainingAttempts : Nat
  isLocked : Bool
deriving Repr, DecidableEq

/-- Embeds `lockAccount(email, attempts, ipAddress)` (lines 82-120): writes the
lock record under `account_locked:{email}` with
`lockedUntil = now + lockoutDuration*1000` and TTL `lockoutDuration`.
The nested notification email is best-effort inside its own try/catch and
touches no cache state, so it does not appear in the embedding.  `avail`
models whether the cache store call succeeds; the surrounding catch (lines
117-119) swallows the failure, leaving the cache unchanged. -/
def lockAccount (avail : Bool) (c : Cache) (now : Int) (email : String)
    (attempts : Nat) (ip : String) : Cache :=
  if avail then
    let lockedUntil : Int := now + (lockoutDuration : Int) * 1000
    { c with
      locks := setEntry c.locks (lockKey email)
        { email := email, attempts := attempts, ipAddress := ip,
          lockedAt := now, lockedUntil := lockedUntil,
          reason := toString attempts ++ " failed login attempts" }
        (now + (lockoutDuration : Int) * 1000) }
  else c

/-- Embeds `trackFailedAttempt(email, ipAddress)` (lines 15-42): increments both
counters with the attempt-window TTL; when `attempts >= maxAttempts` it
locks the account.  `remainingAttempts` is `Math.max(0, max - attempts)`,
which is truncated subtraction on `Nat`.  The catch branch (lines 33-41)
returns zeroed fields and leaves the cache unchanged. -/
def trackFailedAttempt (avail : Bool) (c : Cache) (now : Int)
    (email ip : String) : TrackResult × Cache :=
  if avail then
    let r1 := cacheIncr c.counters now (attemptsKey email) attemptWindow
    let r2 := cacheIncr r1.2 now (ipAttemptsKey ip) attemptWindow
    let c1 : Cache := { c with counters := r2.2 }
    let c2 := if maxAttempts ≤ r1.1 then lockAccount avail c1 now email r1.1 ip else c1
    ({ attempts := r1.1, ipAttempts := r2.1,
       remainingAttempts := maxAttempts - r1.1,
       isLocked := decide (maxAttempts ≤ r1.1) }, c2)
  else
    ({ attempts := 0, ipAttempts := 0, remainingAttempts := maxAttempts,
       isLocked := false }, c)

/-- Embeds `clearAttempts(email, ipAddress)` (lines 45-53): deletes both counters
and the lock record; on cache failure the error is logged and swallowed. -/
def clearAttempts (avail : Bool) (c : Cache) (email ip : String) : Cache :=
  if avail then
    { counters := delEntry (delEntry c.counters (attemptsKey email)) (ipAttemptsKey ip),
      locks := delEntry c.locks (lockKey email) }
  else c

/-- Result object of `isAccountLocked` (lines 66-74). -/
structure LockStatus where
  isLocked : Bool
  reason : Option String
  lockedUntil : Option Int
  remainingMinutes : Option Int
deriving Repr, DecidableEq

/-- Embeds `Math.ceil(a / b)` on an exact integer quotient, as computed by
`Math.ceil((lockData.lockedUntil - Date.now()) / 1000 / 60)`:
ceiling division expressed through flooring division. -/
def jsCeilDiv (a b : Int) : Int := -((-a).fdiv b)

/-- Embeds `isAccountLocked(email)` (lines 56-79): reads the lock record; if
present, reports locked with `remainingMinutes` equal to the ceiling of
the remaining milliseconds over 60000, replaced by 1 when not positive.
The catch branch (lines 75-78) reports not locked. -/
def isAccountLocked (avail : Bool) (c : Cache) (now : Int) (email : String) :
    LockStatus :=
  if avail then
    match lookupLive c.locks now (lockKey email) with
    | some d =>
        let remainingTime := jsCeilDiv (d.lockedUntil - now) 60000
        { isLocked := true, reason := some d.reason,
          lockedUntil := some d.lockedUntil,
          remainingMinutes := some (if 0 < remainingTime then remainingTime else 1) }
    | none =>
        { isLocked := false, reason := none, lockedUntil := none,
          remainingMinutes := none }
  else
    { isLocked := false, reason := none, lockedUntil := none,
      remainingMinutes := none }

/-- Outcome of the `checkLoginAttempts()` gate (lines 123-173).
`locked` and `rateLimited` are the two 429 JSON responses; `proceed b`
is `next()`, where `b` records whether the `req.loginTracking` hooks were
attached (line 162) before `next()` was called. -/
inductive GateResult
  | locked (remainingMinutes : Int)
  | rateLimited
  | proceed (trackingAttached : Bool)
deriving Repr, DecidableEq

/-- HTTP status of a gate rejection: both gate responses are 429
(lines 136 and 152); `proceed` sends no response. -/
def gateStatus : GateResult → Option Nat
  | .locked _ => some 429
  | .rateLimited => some 429
  | .proceed _ => none

/-- Embeds `checkLoginAttempts()` (lines 123-173).  `email` is `req.body.email`
(`none` when the field is absent; the guard `if (!email) return next()` is
also taken for the falsy empty string).  When the lock check passes, the
IP-scoped counter is read (`|| 0` when absent) and compared against
`maxAttempts * 2`.  On a cache-store failure the inner catch of
`isAccountLocked` first yields not-locked, then the read of the IP counter
throws and the outer catch (lines 168-171) calls `next()` without
attaching the tracking hooks. -/
def checkLoginAttempts (avail : Bool) (c : Cache) (now : Int)
    (email : Option String) (ip : String) : GateResult :=
  match email with
  | none => .proceed false
  | some e =>
      if e = "" then .proceed false
      else
        let st := isAccountLocked avail c now e
        if st.isLocked then .locked (st.remainingMinutes.getD 1)
        else if avail then
          let ipAtt := (lookupLive c.counters now (ipAttemptsKey ip)).getD 0
          if maxAttempts * 2 ≤ ipAtt then .rateLimited
          else .proceed true
        else .proceed false

/-- A row of the `profiles` table (`src/models/Profile.js`).  Identifiers
(Supabase UUIDs) are modelled as plain numerals. -/
structure Profile where
  id : Nat
  display_name : Option String
  role : String
  account_status : String
  last_seen_at : Option Int
deriving Repr, DecidableEq

/-- A record of Supabase `auth.users` (the credential directory). -/
structure AuthUser where
  id : Nat
  email : String
deriving Repr, DecidableEq

/-- Embeds `Profile.findById(id)` (Profile.js lines 13-22): `select().eq(id).single()`
over the profiles table, `null` when no row matches. -/
def Profile.findById (ps : List Profile) (i : Nat) : Option Profile :=
  ps.find? (fun p => p.id = i)

/-- Input object of `Profile.create` (Profile.js lines 51-67). -/
structure ProfileData where
  id : Nat
  display_name : Option String
  role : String
  account_status : Option String
deriving Repr, DecidableEq

/-- Embeds `Profile.create(profileData)` (Profile.js lines 51-67): when no
`account_status` is given it defaults to `pending_verification` (both the
teacher branch and the general branch assign the same default); the row is
inserted and returned. -/
def Profile.create (ps : List Profile) (d : ProfileData) :
    Profile × List Profile :=
  let status := d.account_status.getD "pending_verification"
  let p : Profile :=
    { id := d.id, display_name := d.display_name, role := d.role,
      account_status := status, last_seen_at := none }
  (p, ps ++ [p])

/-- Embeds `Profile.update` with a last-seen timestamp (Profile.js lines 75-85), as used
by the login flows: sets `last_seen_at` on the matching row. -/
def Profile.updateLastSeen (ps : List Profile) (i : Nat) (t : Int) :
    List Profile :=
  ps.map (fun p => if p.id = i then { p with last_seen_at := some t } else p)

/-- Response of `AuthController.login` (authController.js lines 83-135).
`success` carries the claims put into the issued JWT
(`userId`, `email`, `role`, lines 114-118). -/
inductive LoginResp
  | invalidCreds
  | profileNotFound
  | suspended
  | emailNotVerified
  | success (userId : Nat) (email : String) (role : String)
deriving Repr, DecidableEq

/-- HTTP status of each login response (lines 95, 102, 107, 110, 123). -/
def loginStatus : LoginResp → Nat
  | .invalidCreds => 401
  | .profileNotFound => 401
  | .suspended => 403
  | .emailNotVerified => 403
  | .success _ _ _ => 200

/-- State returned by the login handler: the response, the profiles table
and the cache store after the handler ran. -/
structure LoginOut where
  resp : LoginResp
  profiles : List Profile
  cache : Cache
deriving Repr, DecidableEq

/-- Embeds `AuthController.login` (authController.js lines 83-135).  `signIn` is
the outcome of `supabase.auth.signInWithPassword` (`none` on credential
error).  The controller consults the profile row, rejects `suspended` and
`pending_verification`, and on success issues a token and updates
`last_seen_at`.  The handler performs no cache-store operation — it never
invokes the `req.loginTracking` hooks attached by the gate — so the cache
passes through unchanged on every path. -/
def login (signIn : Option AuthUser) (profiles : List Profile) (c : Cache)
    (now : Int) : LoginOut :=
  match signIn with
  | none => { resp := .invalidCreds, profiles := profiles, cache := c }
  | some user =>
      match Profile.findById profiles user.id with
      | none => { resp := .profileNotFound, profiles := profiles, cache := c }
      | some p =>
          if p.account_status = "suspended" then
            { resp := .suspended, profiles := profiles, cache := c }
          else if p.account_status = "pending_verification" then
            { resp := .emailNotVerified, profiles := profiles, cache := c }
          else
            { resp := .success p.id user.email p.role,
              profiles := Profile.updateLastSeen profiles p.id now,
              cache := c }

/-- Outcome of the `POST /login` route (authRoutes.js lines 18-23):
either the gate answered with a 429 response, or the controller ran. -/
inductive RouteResult
  | gateLocked (remainingMinutes : Int)
  | gateRateLimited
  | handled (o : LoginOut)
deriving Repr, DecidableEq

/-- The `POST /login` pipeline (authRoutes.js lines 18-23):
`loginAttempts.checkLoginAttempts()` runs first; `authController.login`
(and with it the credential check `signInWithPassword`) runs only when the
gate calls `next()`. -/
def loginRoute (avail : Bool) (c : Cache) (now : Int) (email : Option String)
    (ip : String) (signIn : Option AuthUser) (profiles : List Profile) :
    RouteResult :=
  match checkLoginAttempts avail c now email ip with
  | .locked m => .gateLocked m
  | .rateLimited => .gateRateLimited
  | .proceed _ => .handled (login signIn profiles c now)

/-- Response of `AuthController.forgotPassword` (authController.js lines
178-201). -/
structure ForgotResp where
  status : Nat
  success : Bool
  message : String
deriving Repr, DecidableEq

/-- Embeds `AuthController.forgotPassword` (authController.js lines 178-201):
`resetPasswordForEmail` is delegated to the credential directory;
`resetError` tells whether that call reported an error.  An error is only
logged, and the same generic 200 response is sent in every case. -/
def forgotPassword (email : String) (resetError : Bool) : ForgotResp :=
  { status := 200, success := true,
    message := "If an account with that email exists, a password reset link has been sent." }

/-- JavaScript truthiness of an optional string: absent and the empty
string are falsy. -/
def jsTruthy : Option String → Bool
  | none => false
  | some s => !(s = "")

/-- Payload of a verified session token, as read by the JWT strategy
(auth.js lines 21-47): `userId` and `email` may be missing. -/
structure JwtPayload where
  userId : Option Nat
  email : Option String
deriving Repr, DecidableEq

/-- Outcome of the JWT strategy callback (auth.js lines 21-47):
`invalidPayload`, `userNotFound` and `suspendedAcc` are the three
`done(null, false, msg)` rejections; `ok` is `done(null, profile)`. -/
inductive JwtResult
  | invalidPayload
  | userNotFound
  | suspendedAcc
  | ok (p : Profile)
deriving Repr, DecidableEq

/-- The JWT strategy callback (`configureJwtStrategy`, auth.js lines
21-47), run after signature verification: rejects a payload missing
`userId` or `email` (`if (!payload.userId || !payload.email)` — a missing
claim is `none`; for the email string the empty string is also falsy),
rejects an unknown subject, rejects `account_status = suspended`, and
otherwise attaches the profile. -/
def jwtVerifyUser (payload : JwtPayload) (profiles : List Profile) :
    JwtResult :=
  match payload.userId with
  | none => .invalidPayload
  | some uid =>
      if !(jsTruthy payload.email) then .invalidPayload
      else
        match Profile.findById profiles uid with
        | none => .userNotFound
        | some p =>
            if p.account_status = "suspended" then .suspendedAcc
            else .ok p

/-- The external identity state seen by the Google strategy: the Supabase
`auth.users` directory, the profiles table, and the id counter from which
`auth.admin.createUser` draws fresh ids. -/
structure Directory where
  authUsers : List AuthUser
  profiles : List Profile
  nextId : Nat
deriving Repr, DecidableEq

/-- Embeds `supabase.auth.admin.getUserByEmail(email)` (auth.js line 85). -/
def findAuthByEmail (d : Directory) (e : String) : Option AuthUser :=
  d.authUsers.find? (fun au => au.email = e)

/-- Embeds `supabase.auth.admin.createUser` (auth.js lines 107-114): creates the
identity with the email pre-confirmed and returns it. -/
def adminCreateUser (d : Directory) (e : String) : AuthUser × Directory :=
  let au : AuthUser := { id := d.nextId, email := e }
  (au, { d with authUsers := d.authUsers ++ [au], nextId := d.nextId + 1 })

/-- The Google OAuth strategy callback (`configureGoogleStrategy`, auth.js
lines 71-147) for a Google profile carrying email `e` and display name
`dn`, on the path where the directory calls succeed: look up the identity
by email; if found, fetch the profile and, when it is missing (drift),
create it with role `learner` and status `active`; if no identity exists,
create the identity and then the profile; reject `suspended`; on success
update `last_seen_at` and return the profile object. -/
def googleVerify (d : Directory) (now : Int) (e : String) (dn : String) :
    Option Profile × Directory :=
  match findAuthByEmail d e with
  | some au =>
      match Profile.findById d.profiles au.id with
      | some p =>
          if p.account_status = "suspended" then (none, d)
          else
            (some p,
             { d with profiles := Profile.updateLastSeen d.profiles au.id now })
      | none =>
          let r := Profile.create d.profiles
            { id := au.id, display_name := some dn, role := "learner",
              account_status := some "active" }
          if r.1.account_status = "suspended" then
            (none, { d with profiles := r.2 })
          else
            (some r.1,
             { d with profiles := Profile.updateLastSeen r.2 au.id now })
  | none =>
      let r0 := adminCreateUser d e
      let r := Profile.create r0.2.profiles
        { id := r0.1.id, display_name := some dn, role := "learner",
          account_status := some "active" }
      if r.1.account_status = "suspended" then
        (none, { r0.2 with profiles := r.2 })
      else
        (some r.1,
         { r0.2 with profiles := Profile.updateLastSeen r.2 r0.1.id now })

/-- Well-formedness of the external identity state: identity emails are
unique, profile ids are unique, and every stored id is below the fresh-id
counter. -/
def Directory.WF (d : Directory) : Prop :=
  (d.authUsers.map (fun au => au.email)).Nodup ∧
  (d.profiles.map (fun p => p.id)).Nodup ∧
  (∀ au ∈ d.authUsers, au.id < d.nextId) ∧
  (∀ p ∈ d.profiles, p.id < d.nextId)

instance (d : Directory) : Decidable d.WF := by
  unfold Directory.WF; infer_instance

theorem lookupLive_setEntry_self {α : Type} (l : List (String × α × Int))
    (k : String) (v : α) (exp now : Int) :
    lookupLive (setEntry l k v exp) now k =
      if now < exp then some v else none := by
  unfold lookupLive setEntry
  rw [List.find?_cons_of_pos _ (by simp)]

theorem jsCeilDiv_eq_ceil (a : Int) :
    jsCeilDiv a 60000 = ⌈(a : ℚ) / 60000⌉ := by
  have h1 : ((-a).fdiv 60000) = (-a) / 60000 := Int.fdiv_eq_ediv _ (by norm_num)
  have h2 : ⌊(((-a : ℤ)) : ℚ) / ((60000 : ℕ) : ℚ)⌋ = (-a) / ((60000 : ℕ) : ℤ) :=
    Rat.floor_intCast_div_natCast (-a) 60000
  have h3 : ((a : ℚ) / 60000) = -(((-a : ℤ) : ℚ) / ((60000 : ℕ) : ℚ)) := by
    push_cast; ring
  rw [jsCeilDiv, h1, h3, Int.ceil_neg, h2]
  norm_num

theorem updateLastSeen_id_preserved (i : Nat) (t : Int) (p : Profile) :
    (if p.id = i then { p with last_seen_at := some t } else p).id = p.id := by
  split <;> rfl

theorem find?_id_map (f : Profile → Profile) (hf : ∀ p, (f p).id = p.id)
    (ps : List Profile) (j : Nat) :
    (ps.map f).find? (fun p => p.id = j) =
      (ps.find? (fun p => p.id = j)).map f := by
  induction ps with
  | nil => rfl
  | cons p ps ih =>
      rw [List.map_cons]
      by_cases h : p.id = j
      · rw [List.find?_cons_of_pos _
            (by simp only [decide_eq_true_eq, hf p]; exact h),
          List.find?_cons_of_pos _ (by simp [h])]
        rfl
      · rw [List.find?_cons_of_neg _
            (by simp only [decide_eq_true_eq, hf p]; exact h),
          List.find?_cons_of_neg _ (by simp [h])]
        exact ih

theorem findById_updateLastSeen (ps : List Profile) (i : Nat) (t : Int)
    (j : Nat) :
    Profile.findById (Profile.updateLastSeen ps i t) j =
      (Profile.findById ps j).map
        (fun p => if p.id = i then { p with last_seen_at := some t } else p) :=
  find?_id_map _ (updateLastSeen_id_preserved i t) ps j

theorem updateLastSeen_map_id (ps : List Profile) (i : Nat) (t : Int) :
    (Profile.updateLastSeen ps i t).map (fun p => p.id) =
      ps.map (fun p => p.id) := by
  unfold Profile.updateLastSeen
  rw [List.map_map]
  refine List.map_congr_left ?_
  intro p hp
  simp only [Function.comp]
  exact updateLastSeen_id_preserved i t p

theorem filter_id_map (f : Profile → Profile) (hf : ∀ p, (f p).id = p.id)
    (ps : List Profile) (j : Nat) :
    (ps.map f).filter (fun p => p.id = j) =
      (ps.filter (fun p => p.id = j)).map f := by
  rw [List.filter_map]
  congr 1
  refine List.filter_congr ?_
  intro p hp
  simp [Function.comp, hf]

theorem updateLastSeen_filter_length (ps : List Profile) (i : Nat) (t : Int)
    (j : Nat) :
    ((Profile.updateLastSeen ps i t).filter (fun p => p.id = j)).length =
      (ps.filter (fun p => p.id = j)).length := by
  unfold Profile.updateLastSeen
  rw [filter_id_map _ (updateLastSeen_id_preserved i t), List.length_map]

/-- C1: the spec says every login rejection (invalid credentials, profile
absent, suspended, pending_verification) is recorded by
`trackFailedAttempt` before the response is returned.  The controller
never invokes the `req.loginTracking.trackFailure` hook the gate attached,
so no rejection touches the counters: at a concrete rejected request
(wrong password, and separately a pending_verification profile) the route
answers with the cache — hence the email counter, still at 2 — unchanged. -/
theorem claim1_rejections_not_tracked :
    (loginRoute true ⟨[("login_attempts:a@x.com", 2, 100000)], []⟩ 0
        (some "a@x.com") "1.2.3.4" none [] =
      .handled ⟨.invalidCreds, [],
        ⟨[("login_attempts:a@x.com", 2, 100000)], []⟩⟩) ∧
    (loginRoute true ⟨[("login_attempts:a@x.com", 2, 100000)], []⟩ 0
        (some "a@x.com") "1.2.3.4" (some ⟨7, "a@x.com"⟩)
        [⟨7, none, "learner", "pending_verification", none⟩] =
      .handled ⟨.emailNotVerified,
        [⟨7, none, "learner", "pending_verification", none⟩],
        ⟨[("login_attempts:a@x.com", 2, 100000)], []⟩⟩) ∧
    lookupLive (Cache.counters ⟨[("login_attempts:a@x.com", 2, 100000)], []⟩) 0
        (attemptsKey "a@x.com") = some 2 := by
  refine ⟨?_, ?_, ?_⟩ <;> decide

/-- C3: the spec says a successful login clears both counters and the
lock record.  The controller never invokes the attached
`req.loginTracking.clearAttempts` hook: at a concrete successful login
with both counters at 3 the route answers with the cache unchanged, and a
subsequent failed attempt would count 4, not 1.  The third conjunct
records that `clearAttempts`, had it been called, would have deleted the
counters. -/
theorem claim3_success_does_not_clear :
    (loginRoute true
        ⟨[("login_attempts:a@x.com", 3, 100000),
          ("login_attempts_ip:1.2.3.4", 3, 100000)], []⟩ 0
        (some "a@x.com") "1.2.3.4" (some ⟨7, "a@x.com"⟩)
        [⟨7, none, "learner", "active", none⟩] =
      .handled ⟨.success 7 "a@x.com" "learner",
        [⟨7, none, "learner", "active", some 0⟩],
        ⟨[("login_attempts:a@x.com", 3, 100000),
          ("login_attempts_ip:1.2.3.4", 3, 100000)], []⟩⟩) ∧
    (trackFailedAttempt true
        ⟨[("login_attempts:a@x.com", 3, 100000),
          ("login_attempts_ip:1.2.3.4", 3, 100000)], []⟩ 1
        "a@x.com" "1.2.3.4").1.attempts = 4 ∧
    clearAttempts true
        ⟨[("login_attempts:a@x.com", 3, 100000),
          ("login_attempts_ip:1.2.3.4", 3, 100000)], []⟩
        "a@x.com" "1.2.3.4" = ⟨[], []⟩ := by
  refine ⟨?_, ?_, ?_⟩ <;> decide

/-- C4: OAuth identity reconciliation is idempotent and heals drift.  For
a well-formed directory state: (a) whenever the first reconciliation for
an external email yields a profile, running it again yields a profile with
the same id; (b) after two runs the profile ids are still duplicate-free
(no duplicate profile is ever created); (c) when an identity exists with
no matching profile, the first run creates exactly one profile for that
identity, with role `learner` and status `active`, and the second run does
not create another. -/
theorem claim4_oauth_reconciliation (d : Directory) (now1 now2 : Int)
    (e dn1 dn2 : String) (hWF : d.WF) :
    (∀ p1 : Profile, (googleVerify d now1 e dn1).1 = some p1 →
       ∃ p2 : Profile,
         (googleVerify (googleVerify d now1 e dn1).2 now2 e dn2).1 = some p2 ∧
         p2.id = p1.id) ∧
    ((googleVerify (googleVerify d now1 e dn1).2 now2 e dn2).2.profiles.map
        (fun p => p.id)).Nodup ∧
    (∀ au : AuthUser, findAuthByEmail d e = some au →
       Profile.findById d.profiles au.id = none →
       ∃ p1 : Profile, (googleVerify d now1 e dn1).1 = some p1 ∧
         p1.id = au.id ∧ p1.role = "learner" ∧ p1.account_status = "active" ∧
         ((googleVerify d now1 e dn1).2.profiles.filter
             (fun p => p.id = au.id)).length = 1 ∧
         ((googleVerify (googleVerify d now1 e dn1).2 now2 e dn2).2.profiles.filter
             (fun p => p.id = au.id)).length = 1) := by
  obtain ⟨hem, hids, hauth, hprof⟩ := hWF
  cases hfind : findAuthByEmail d e with
  | some au =>
      cases hp : Profile.findById d.profiles au.id with
      | some p =>
          have hpid : p.id = au.id := by simpa using List.find?_some hp
          by_cases hs : p.account_status = "suspended"
          · have hg1 : googleVerify d now1 e dn1 = (none, d) := by
              simp [googleVerify, hfind, hp, hs]
            have hg2 : googleVerify d now2 e dn2 = (none, d) := by
              simp [googleVerify, hfind, hp, hs]
            refine ⟨?_, ?_, ?_⟩
            · intro p1 hp1x
              rw [hg1] at hp1x
              simp at hp1x
            · simp only [hg1, hg2]
              exact hids
            · intro au2 hau2 hnone
              injection hau2 with h
              subst h
              rw [hnone] at hp
              simp at hp
          · have hg1 : googleVerify d now1 e dn1 =
                (some p,
                 { d with profiles := Profile.updateLastSeen d.profiles au.id now1 }) := by
              simp [googleVerify, hfind, hp, hs]
            have hp1 : Profile.findById
                (Profile.updateLastSeen d.profiles au.id now1) au.id =
                some { p with last_seen_at := some now1 } := by
              rw [findById_updateLastSeen, hp]
              simp [hpid]
            have hs1 : ¬ ({ p with last_seen_at := some now1 } :
                Profile).account_status = "suspended" := hs
            have hfind1 : findAuthByEmail
                { d with profiles := Profile.updateLastSeen d.profiles au.id now1 } e =
                some au := hfind
            have hg2 : googleVerify
                { d with profiles := Profile.updateLastSeen d.profiles au.id now1 } now2 e dn2 =
                (some { p with last_seen_at := some now1 },
                 { d with profiles := Profile.updateLastSeen (Profile.updateLastSeen d.profiles au.id now1) au.id now2 }) := by
              simp [googleVerify, hfind1, hp1, hs1]
            refine ⟨?_, ?_, ?_⟩
            · intro p1 hp1x
              rw [hg1] at hp1x
              simp at hp1x
              subst hp1x
              exact ⟨{ p with last_seen_at := some now1 },
                by simp [hg1, hg2], rfl⟩
            · simp only [hg1, hg2]
              rw [updateLastSeen_map_id, updateLastSeen_map_id]
              exact hids
            · intro au2 hau2 hnone
              injection hau2 with h
              subst h
              rw [hnone] at hp
              simp at hp
      | none =>
          have hnotin : ∀ q ∈ d.profiles, ¬ q.id = au.id := by
            intro q hq
            have h := List.find?_eq_none.mp hp q hq
            simpa using h
          have hg1 : googleVerify d now1 e dn1 =
              (some ⟨au.id, some dn1, "learner", "active", none⟩,
               { d with profiles := Profile.updateLastSeen (d.profiles ++ [⟨au.id, some dn1, "learner", "active", none⟩]) au.id now1 }) := by
            simp [googleVerify, hfind, hp, Profile.create]
          have happ : Profile.findById
              (d.profiles ++ [⟨au.id, some dn1, "learner", "active", none⟩])
              au.id =
              some ⟨au.id, some dn1, "learner", "active", none⟩ := by
            unfold Profile.findById at hp ⊢
            rw [List.find?_append, hp, Option.none_or]
            exact List.find?_cons_of_pos _ (by simp)
          have hp2 : Profile.findById
              (Profile.updateLastSeen
                (d.profiles ++ [⟨au.id, some dn1, "learner", "active", none⟩])
                au.id now1) au.id =
              some ⟨au.id, some dn1, "learner", "active", some now1⟩ := by
            rw [findById_updateLastSeen, happ]
            simp
          have hfind1 : findAuthByEmail
              { d with profiles := Profile.updateLastSeen (d.profiles ++ [⟨au.id, some dn1, "learner", "active", none⟩]) au.id now1 } e =
              some au := hfind
          have hg2 : googleVerify
              { d with profiles := Profile.updateLastSeen (d.profiles ++ [⟨au.id, some dn1, "learner", "active", none⟩]) au.id now1 } now2 e dn2 =
              (some ⟨au.id, some dn1, "learner", "active", some now1⟩,
               { d with profiles := Profile.updateLastSeen (Profile.updateLastSeen (d.profiles ++ [⟨au.id, some dn1, "learner", "active", none⟩]) au.id now1) au.id now2 }) := by
            simp [googleVerify, hfind1, hp2]
          have hfilterNil : d.profiles.filter (fun p => p.id = au.id) = [] :=
            List.filter_eq_nil_iff.mpr (by intro q hq; simpa using hnotin q hq)
          refine ⟨?_, ?_, ?_⟩
          · intro p1 hp1x
            rw [hg1] at hp1x
            simp at hp1x
            subst hp1x
            exact ⟨⟨au.id, some dn1, "learner", "active", some now1⟩,
              by simp [hg1, hg2], rfl⟩
          · simp only [hg1, hg2]
            rw [updateLastSeen_map_id, updateLastSeen_map_id, List.map_append]
            refine List.Nodup.append hids (by simp) ?_
            intro x hx hmem
            simp at hmem
            obtain ⟨q, hq, hqid⟩ := List.mem_map.mp hx
            exact hnotin q hq (by rw [hqid, hmem])
          · intro au2 hau2 hnone
            injection hau2 with h
            subst h
            refine ⟨⟨au.id, some dn1, "learner", "active", none⟩,
              by simp [hg1], rfl, rfl, rfl, ?_, ?_⟩
            · simp only [hg1]
              rw [updateLastSeen_filter_length, List.filter_append, hfilterNil]
              simp
            · simp only [hg1, hg2]
              rw [updateLastSeen_filter_length, updateLastSeen_filter_length,
                List.filter_append, hfilterNil]
              simp
  | none =>
      have hnotin : ∀ q ∈ d.profiles, ¬ q.id = d.nextId := by
        intro q hq
        exact Nat.ne_of_lt (hprof q hq)
      have hpfind : Profile.findById d.profiles d.nextId = none := by
        unfold Profile.findById
        rw [List.find?_eq_none]
        intro q hq
        simpa using hnotin q hq
      have hg1 : googleVerify d now1 e dn1 =
          (some ⟨d.nextId, some dn1, "learner", "active", none⟩,
           { authUsers := d.authUsers ++ [⟨d.nextId, e⟩],
             profiles := Profile.updateLastSeen (d.profiles ++ [⟨d.nextId, some dn1, "learner", "active", none⟩]) d.nextId now1,
             nextId := d.nextId + 1 }) := by
        simp [googleVerify, hfind, adminCreateUser, Profile.create]
      have hfind1 : findAuthByEmail
          { authUsers := d.authUsers ++ [⟨d.nextId, e⟩],
            profiles := Profile.updateLastSeen (d.profiles ++ [⟨d.nextId, some dn1, "learner", "active", none⟩]) d.nextId now1,
            nextId := d.nextId + 1 } e = some ⟨d.nextId, e⟩ := by
        unfold findAuthByEmail at hfind ⊢
        rw [List.find?_append, hfind, Option.none_or]
        exact List.find?_cons_of_pos _ (by simp)
      have happ : Profile.findById
          (d.profiles ++ [⟨d.nextId, some dn1, "learner", "active", none⟩])
          d.nextId =
          some ⟨d.nextId, some dn1, "learner", "active", none⟩ := by
        unfold Profile.findById at hpfind ⊢
        rw [List.find?_append, hpfind, Option.none_or]
        exact List.find?_cons_of_pos _ (by simp)
      have hp2 : Profile.findById
          (Profile.updateLastSeen
            (d.profiles ++ [⟨d.nextId, some dn1, "learner", "active", none⟩])
            d.nextId now1) d.nextId =
          some ⟨d.nextId, some dn1, "learner", "active", some now1⟩ := by
        rw [findById_updateLastSeen, happ]
        simp
      have hg2 : googleVerify
          { authUsers := d.authUsers ++ [⟨d.nextId, e⟩],
            profiles := Profile.updateLastSeen (d.profiles ++ [⟨d.nextId, some dn1, "learner", "active", none⟩]) d.nextId now1,
            nextId := d.nextId + 1 } now2 e dn2 =
          (some ⟨d.nextId, some dn1, "learner", "active", some now1⟩,
           { authUsers := d.authUsers ++ [⟨d.nextId, e⟩],
             profiles := Profile.updateLastSeen (Profile.updateLastSeen (d.profiles ++ [⟨d.nextId, some dn1, "learner", "active", none⟩]) d.nextId now1) d.nextId now2,
             nextId := d.nextId + 1 }) := by
        simp [googleVerify, hfind1, hp2]
      refine ⟨?_, ?_, ?_⟩
      · intro p1 hp1x
        rw [hg1] at hp1x
        simp at hp1x
        subst hp1x
        exact ⟨⟨d.nextId, some dn1, "learner", "active", some now1⟩,
          by simp [hg1, hg2], rfl⟩
      · simp only [hg1, hg2]
        rw [updateLastSeen_map_id, updateLastSeen_map_id, List.map_append]
        refine List.Nodup.append hids (by simp) ?_
        intro x hx hmem
        simp at hmem
        obtain ⟨q, hq, hqid⟩ := List.mem_map.mp hx
        exact hnotin q hq (by rw [hqid, hmem])
      · intro au2 hau2 hnone
        simp at hau2

/-- Witness for C4: a directory holding the identity `a@x.com` (id 0) with
no profile row — reconciliation heals the drift exactly once across two
runs. -/
theorem claim4_witness :
    Directory.WF ⟨[⟨0, "a@x.com"⟩], [], 1⟩ ∧
    ∃ p1 : Profile,
      (googleVerify ⟨[⟨0, "a@x.com"⟩], [], 1⟩ 5 "a@x.com" "Ann").1 = some p1 ∧
      p1.id = 0 ∧ p1.role = "learner" ∧ p1.account_status = "active" ∧
      ((googleVerify ⟨[⟨0, "a@x.com"⟩], [], 1⟩ 5 "a@x.com" "Ann").2.profiles.filter
          (fun p => p.id = 0)).length = 1 ∧
      ((googleVerify
          (googleVerify ⟨[⟨0, "a@x.com"⟩], [], 1⟩ 5 "a@x.com" "Ann").2
          6 "a@x.com" "Ann").2.profiles.filter
          (fun p => p.id = 0)).length = 1 :=
  ⟨by decide,
   (claim4_oauth_reconciliation ⟨[⟨0, "a@x.com"⟩], [], 1⟩ 5 6 "a@x.com"
      "Ann" "Ann" (by decide)).2.2 ⟨0, "a@x.com"⟩ rfl rfl⟩

/-- C2: whenever `trackFailedAttempt` reports at least `maxAttempts`
failed attempts (the 5th tracked failure within the live window), the
resulting cache holds a lock record for that email whose `lockedUntil` is
the lockout duration away, live until then; and whenever a live lock
record exists for an email, the gate answers 429 locked, and the whole
route short-circuits before the controller for **every** credential-check
outcome — the credential check never runs on a locked account. -/
theorem claim2_lockout_gate (c : Cache) (now : Int) (e ip : String)
    (r : TrackResult) (c' : Cache)
    (he : ¬ e = "")
    (htrack : trackFailedAttempt true c now e ip = (r, c'))
    (h5 : maxAttempts ≤ r.attempts) :
    (∀ t : Int, t < now + (lockoutDuration : Int) * 1000 →
       ∃ d : LockData, lookupLive c'.locks t (lockKey e) = some d ∧
         d.lockedUntil = now + (lockoutDuration : Int) * 1000 ∧
         d.attempts = r.attempts) ∧
    (∀ (c2 : Cache) (now2 : Int) (ip2 : String) (d : LockData),
       lookupLive c2.locks now2 (lockKey e) = some d →
       ∃ m : Int, checkLoginAttempts true c2 now2 (some e) ip2 = .locked m ∧
         gateStatus (GateResult.locked m) = some 429 ∧
         ∀ (signIn : Option AuthUser) (profiles : List Profile),
           loginRoute true c2 now2 (some e) ip2 signIn profiles =
             .gateLocked m) := by
  constructor
  · intro t ht
    have hr1 : r = (trackFailedAttempt true c now e ip).1 := by rw [htrack]
    have hc1 : c' = (trackFailedAttempt true c now e ip).2 := by rw [htrack]
    have hA : r.attempts =
        (cacheIncr c.counters now (attemptsKey e) attemptWindow).1 := by
      rw [hr1]; rfl
    have h5A : maxAttempts ≤
        (cacheIncr c.counters now (attemptsKey e) attemptWindow).1 := by
      rw [← hA]; exact h5
    have hexp : (trackFailedAttempt true c now e ip).2 =
        if maxAttempts ≤ (cacheIncr c.counters now (attemptsKey e) attemptWindow).1
        then lockAccount true
            { c with counters :=
                (cacheIncr (cacheIncr c.counters now (attemptsKey e) attemptWindow).2
                  now (ipAttemptsKey ip) attemptWindow).2 } now e
            (cacheIncr c.counters now (attemptsKey e) attemptWindow).1 ip
        else
          { c with counters :=
              (cacheIncr (cacheIncr c.counters now (attemptsKey e) attemptWindow).2
                now (ipAttemptsKey ip) attemptWindow).2 } := rfl
    refine ⟨{ email := e,
              attempts := (cacheIncr c.counters now (attemptsKey e) attemptWindow).1,
              ipAddress := ip, lockedAt := now,
              lockedUntil := now + (lockoutDuration : Int) * 1000,
              reason := toString
                  (cacheIncr c.counters now (attemptsKey e) attemptWindow).1 ++
                " failed login attempts" }, ?_, rfl, by rw [hA]⟩
    rw [hc1, hexp, if_pos h5A]
    show lookupLive
        (setEntry c.locks (lockKey e) _ (now + (lockoutDuration : Int) * 1000)) t
        (lockKey e) = _
    rw [lookupLive_setEntry_self, if_pos ht]
  · intro c2 now2 ip2 d hd
    have hst : isAccountLocked true c2 now2 e =
        { isLocked := true, reason := some d.reason,
          lockedUntil := some d.lockedUntil,
          remainingMinutes := some
            (if 0 < jsCeilDiv (d.lockedUntil - now2) 60000
             then jsCeilDiv (d.lockedUntil - now2) 60000 else 1) } := by
      unfold isAccountLocked
      rw [if_pos rfl, hd]
    have hgate : checkLoginAttempts true c2 now2 (some e) ip2 =
        .locked (if 0 < jsCeilDiv (d.lockedUntil - now2) 60000
                 then jsCeilDiv (d.lockedUntil - now2) 60000 else 1) := by
      simp [checkLoginAttempts, he, hst]
    exact ⟨_, hgate, rfl, fun signIn profiles => by simp [loginRoute, hgate]⟩

/-- Witness for C2: with the counter for `a@x.com` at 4, one more tracked
failure locks the account, and the gate then rejects the next request no
matter the credentials. -/
theorem claim2_witness :
    (∃ d : LockData,
       lookupLive (trackFailedAttempt true
           ⟨[("login_attempts:a@x.com", 4, 100000)], []⟩
           0 "a@x.com" "1.2.3.4").2.locks 0 (lockKey "a@x.com") = some d ∧
       d.lockedUntil = 0 + (lockoutDuration : Int) * 1000 ∧
       d.attempts = (trackFailedAttempt true
           ⟨[("login_attempts:a@x.com", 4, 100000)], []⟩
           0 "a@x.com" "1.2.3.4").1.attempts) ∧
    (∃ m : Int,
       checkLoginAttempts true (trackFailedAttempt true
           ⟨[("login_attempts:a@x.com", 4, 100000)], []⟩
           0 "a@x.com" "1.2.3.4").2 0 (some "a@x.com") "9.9.9.9" =
         .locked m ∧
       gateStatus (GateResult.locked m) = some 429 ∧
       ∀ (signIn : Option AuthUser) (profiles : List Profile),
         loginRoute true (trackFailedAttempt true
             ⟨[("login_attempts:a@x.com", 4, 100000)], []⟩
             0 "a@x.com" "1.2.3.4").2 0 (some "a@x.com") "9.9.9.9"
             signIn profiles = .gateLocked m) := by
  have h := claim2_lockout_gate ⟨[("login_attempts:a@x.com", 4, 100000)], []⟩
    0 "a@x.com" "1.2.3.4"
    (trackFailedAttempt true ⟨[("login_attempts:a@x.com", 4, 100000)], []⟩
      0 "a@x.com" "1.2.3.4").1
    (trackFailedAttempt true ⟨[("login_attempts:a@x.com", 4, 100000)], []⟩
      0 "a@x.com" "1.2.3.4").2
    (by decide) rfl (by decide)
  refine ⟨h.1 0 (by norm_num [lockoutDuration]), ?_⟩
  obtain ⟨d, hd, hdu, hda⟩ := h.1 0 (by norm_num [lockoutDuration])
  exact h.2 _ 0 "9.9.9.9" d hd

/-- C5: when the cache store is unavailable the Lockout Guard fails open:
`isAccountLocked` reports not-locked on internal error, and the gate calls
`next()` so the request reaches credential verification instead of being
blocked — for every cache state, email (present, empty or absent), IP and
login input. -/
theorem claim5_gate_fails_open (c : Cache) (now : Int) (email : Option String)
    (e ip : String) (signIn : Option AuthUser) (profiles : List Profile) :
    (isAccountLocked false c now e).isLocked = false ∧
    checkLoginAttempts false c now email ip = .proceed false ∧
    loginRoute false c now email ip signIn profiles =
      .handled (login signIn profiles c now) := by
  have hgate : ∀ em : Option String,
      checkLoginAttempts false c now em ip = .proceed false := by
    intro em
    cases em with
    | none => rfl
    | some e2 =>
        by_cases h : e2 = "" <;> simp [checkLoginAttempts, isAccountLocked, h]
  exact ⟨rfl, hgate email, by simp [loginRoute, hgate email]⟩

/-- C6: with a live lock record, `isAccountLocked` reports locked with
`remainingMinutes` equal to `ceil((lockedUntil - now)/60000)` when that
value is positive and 1 otherwise, hence always at least 1; with no live
lock record it reports not locked. -/
theorem claim6_isAccountLocked_spec (c : Cache) (now : Int) (e : String) :
    (∀ d : LockData, lookupLive c.locks now (lockKey e) = some d →
       (isAccountLocked true c now e =
         { isLocked := true, reason := some d.reason,
           lockedUntil := some d.lockedUntil,
           remainingMinutes := some
             (if 0 < ⌈((d.lockedUntil - now : ℤ) : ℚ) / 60000⌉
              then ⌈((d.lockedUntil - now : ℤ) : ℚ) / 60000⌉ else 1) }) ∧
       ∀ m : Int, (isAccountLocked true c now e).remainingMinutes = some m →
         1 ≤ m) ∧
    (lookupLive c.locks now (lockKey e) = none →
       isAccountLocked true c now e =
         { isLocked := false, reason := none, lockedUntil := none,
           remainingMinutes := none }) := by
  constructor
  · intro d hd
    have hrec : isAccountLocked true c now e =
        { isLocked := true, reason := some d.reason,
          lockedUntil := some d.lockedUntil,
          remainingMinutes := some
            (if 0 < ⌈((d.lockedUntil - now : ℤ) : ℚ) / 60000⌉
             then ⌈((d.lockedUntil - now : ℤ) : ℚ) / 60000⌉ else 1) } := by
      unfold isAccountLocked
      rw [if_pos rfl, hd]
      simp only [jsCeilDiv_eq_ceil]
    refine ⟨hrec, ?_⟩
    intro m hm
    rw [hrec] at hm
    simp only [Option.some.injEq] at hm
    split at hm <;> omega
  · intro h
    unfold isAccountLocked
    rw [if_pos rfl, h]

/-- Witness for C6 at a concrete locked cache (15 minutes remaining) and a
concrete empty cache. -/
theorem claim6_witness :
    isAccountLocked true
      ⟨[], [("account_locked:a@x.com",
             ⟨"a@x.com", 5, "1.2.3.4", 0, 900000, "5 failed login attempts"⟩,
             900000)]⟩ 0 "a@x.com" =
      { isLocked := true, reason := some "5 failed login attempts",
        lockedUntil := some 900000, remainingMinutes := some 15 } ∧
    isAccountLocked true ⟨[], []⟩ 0 "b@x.com" =
      { isLocked := false, reason := none, lockedUntil := none,
        remainingMinutes := none } := by
  constructor
  · have h := ((claim6_isAccountLocked_spec
        ⟨[], [("account_locked:a@x.com",
               ⟨"a@x.com", 5, "1.2.3.4", 0, 900000, "5 failed login attempts"⟩,
               900000)]⟩ 0 "a@x.com").1
        ⟨"a@x.com", 5, "1.2.3.4", 0, 900000, "5 failed login attempts"⟩
        (by decide)).1
    rw [h]
    norm_num
  · exact (claim6_isAccountLocked_spec ⟨[], []⟩ 0 "b@x.com").2 rfl

/-- C7: `forgotPassword` is non-enumerating: the response does not depend
on the email nor on whether the reset call of the credential directory reported
an error, and it is always the generic 200 success message. -/
theorem claim7_forgot_password_non_enumerating (e1 e2 : String) (b1 b2 : Bool) :
    forgotPassword e1 b1 = forgotPassword e2 b2 ∧
    (forgotPassword e1 b1).status = 200 ∧
    (forgotPassword e1 b1).success = true :=
  ⟨rfl, rfl, rfl⟩

/-- C8: when the email is present and not locked but the client IP has at
least `2 * maxAttempts` live IP-scoped attempts, the gate answers 429
rate-limited and the controller (and with it the credential check) never
runs. -/
theorem claim8_ip_cutoff (c : Cache) (now : Int) (e ip : String) (n : Nat)
    (he : ¬ e = "")
    (hl : lookupLive c.locks now (lockKey e) = none)
    (hip : lookupLive c.counters now (ipAttemptsKey ip) = some n)
    (hn : maxAttempts * 2 ≤ n) :
    checkLoginAttempts true c now (some e) ip = .rateLimited ∧
    gateStatus (checkLoginAttempts true c now (some e) ip) = some 429 ∧
    ∀ (signIn : Option AuthUser) (profiles : List Profile),
      loginRoute true c now (some e) ip signIn profiles = .gateRateLimited := by
  have hgate : checkLoginAttempts true c now (some e) ip = .rateLimited := by
    simp [checkLoginAttempts, he, isAccountLocked, hl, hip, hn]
  exact ⟨hgate, by rw [hgate]; rfl,
    fun signIn profiles => by simp [loginRoute, hgate]⟩

/-- Witness for C8 at a concrete cache whose IP counter is 10. -/
theorem claim8_witness :
    checkLoginAttempts true ⟨[("login_attempts_ip:5.6.7.8", 10, 1000)], []⟩ 0
        (some "c@x.com") "5.6.7.8" = .rateLimited ∧
    gateStatus (checkLoginAttempts true
        ⟨[("login_attempts_ip:5.6.7.8", 10, 1000)], []⟩ 0
        (some "c@x.com") "5.6.7.8") = some 429 ∧
    ∀ (signIn : Option AuthUser) (profiles : List Profile),
      loginRoute true ⟨[("login_attempts_ip:5.6.7.8", 10, 1000)], []⟩ 0
        (some "c@x.com") "5.6.7.8" signIn profiles = .gateRateLimited :=
  claim8_ip_cutoff ⟨[("login_attempts_ip:5.6.7.8", 10, 1000)], []⟩ 0
    "c@x.com" "5.6.7.8" 10 (by decide) (by decide) (by decide) (by decide)

/-- C9: a login request whose body has no email field passes straight
through the gate: no lock check, no IP cutoff, no tracking hooks attached,
for every availability, cache state, IP and login input. -/
theorem claim9_no_email_passthrough (avail : Bool) (c : Cache) (now : Int)
    (ip : String) (signIn : Option AuthUser) (profiles : List Profile) :
    checkLoginAttempts avail c now none ip = .proceed false ∧
    loginRoute avail c now none ip signIn profiles =
      .handled (login signIn profiles c now) :=
  ⟨rfl, rfl⟩

/-- C10: for a verified token whose payload carries `userId` and `email`
and whose subject profile exists, the JWT strategy succeeds exactly when
the profile is not suspended; in particular `pending_verification` is
accepted. -/
theorem claim10_jwt_rejects_only_suspended (payload : JwtPayload)
    (profiles : List Profile) (uid : Nat) (p : Profile)
    (hu : payload.userId = some uid)
    (he : jsTruthy payload.email = true)
    (hp : Profile.findById profiles uid = some p) :
    (jwtVerifyUser payload profiles = .ok p ↔
      ¬ p.account_status = "suspended") ∧
    (p.account_status = "pending_verification" →
      jwtVerifyUser payload profiles = .ok p) := by
  have hbase : jwtVerifyUser payload profiles =
      if p.account_status = "suspended" then .suspendedAcc else .ok p := by
    unfold jwtVerifyUser
    rw [hu]
    simp [he, hp]
  constructor
  · by_cases hs : p.account_status = "suspended" <;> simp [hbase, hs]
  · intro hpend
    rw [hbase]
    simp [hpend]

/-- Witness for C10: a pending_verification profile is authenticated. -/
theorem claim10_witness :
    jwtVerifyUser ⟨some 7, some "a@x.com"⟩
        [⟨7, none, "learner", "pending_verification", none⟩] =
      .ok ⟨7, none, "learner", "pending_verification", none⟩ :=
  (claim10_jwt_rejects_only_suspended ⟨some 7, some "a@x.com"⟩
    [⟨7, none, "learner", "pending_verification", none⟩] 7
    ⟨7, none, "learner", "pending_verification", none⟩
    rfl (by decide) (by decide)).2 rfl

end VocaBoost
